import Mathlib

/-!
Shallow embedding of `src/ml_service/app.py` (Plant Scope AI — ML service).

Python strings are modelled as `List Char`; Python `float` values that
carry confidences are modelled as `ℚ` (no claim depends on IEEE-754
rounding artefacts).  External collaborators (the ViT model, the Gemini
vision and text models, `json.loads`, PIL decoding) are modelled as
explicit inputs: their outcomes are fields of environment records, and
the code's own control flow and data handling are translated directly.
-/

namespace PlantScope

abbrev PyStr := List Char

/-- Python `str.lower()` (ASCII case folding suffices for the strings the
service manipulates). -/
def pyLower (s : PyStr) : PyStr := s.map Char.toLower

/-- Python `str.strip()`: remove leading and trailing whitespace. -/
def pyStrip (s : PyStr) : PyStr :=
  ((s.dropWhile Char.isWhitespace).reverse.dropWhile Char.isWhitespace).reverse

/-- Python `sub in s` substring containment. -/
def pyContains (s sub : PyStr) : Bool :=
  match s with
  | [] => sub.isEmpty
  | _ :: cs => sub.isPrefixOf s || pyContains cs sub

/-- The backtick character, U+0060. -/
def fenceChar : Char := '\x60'

/-- The triple-backtick code-fence marker the service splits on. -/
def fenceMark : PyStr := [fenceChar, fenceChar, fenceChar]

/-- Python `text.split("\x60\x60\x60")`: leftmost, non-overlapping splits on
the triple-backtick marker. -/
def splitFenceAux (acc : PyStr) : PyStr → List PyStr
  | c1 :: c2 :: c3 :: rest =>
    if c1 = fenceChar ∧ c2 = fenceChar ∧ c3 = fenceChar then
      acc.reverse :: splitFenceAux [] rest
    else
      splitFenceAux (c1 :: acc) (c2 :: c3 :: rest)
  | c1 :: cs => splitFenceAux (c1 :: acc) cs
  | [] => [acc.reverse]

def pySplitFence (s : PyStr) : List PyStr := splitFenceAux [] s

/-- Lines 157–165 of `app.py`: `response.text.strip()` followed by the
markdown code-fence handling that runs before `json.loads`. -/
def extract_reply_text (raw : PyStr) : PyStr :=
  let text := pyStrip raw
  if pyContains text fenceMark then
    let t := (pySplitFence text).getD 1 []
    let t := if ("json".toList).isPrefixOf t then t.drop 4 else t
    pyStrip t
  else text

/-- JSON values as produced by `json.loads`. -/
inductive Json where
  | null
  | bool (b : Bool)
  | num (q : ℚ)
  | str (s : PyStr)
  | arr (elems : List Json)
  | obj (fields : List (PyStr × Json))

/-- Decimal value of a digit list. -/
def digitsVal (l : PyStr) : ℕ :=
  l.foldl (fun a c => a * 10 + (c.toNat - 48)) 0

def isDigits (l : PyStr) : Bool := !l.isEmpty && l.all Char.isDigit

/-- Python `float()` on a string, modelled for plain decimal literals
(optional sign, integer and/or fractional digits).  Exponents,
underscores, `inf` and `nan` are not modelled; no claim reaches them. -/
def pyParseFloat (s : PyStr) : Option ℚ :=
  let t := pyStrip s
  let signAndRest : Int × PyStr :=
    match t with
    | c :: rest =>
      if c = '-' then (-1, rest) else if c = '+' then (1, rest) else (1, t)
    | [] => (1, [])
  let sgn := signAndRest.1
  let u := signAndRest.2
  match u.splitOn '.' with
  | [ipart] =>
    if isDigits ipart then some ((sgn * digitsVal ipart : ℤ) : ℚ) else none
  | [ipart, fpart] =>
    if (isDigits ipart || ipart.isEmpty) && (isDigits fpart || fpart.isEmpty)
        && !(ipart.isEmpty && fpart.isEmpty) then
      some ((sgn : ℚ) * ((digitsVal ipart : ℚ) + (digitsVal fpart : ℚ) / (10 ^ fpart.length)))
    else none
  | _ => none

/-- Python `float()` applied to a JSON-decoded value; `none` models the
raise that the surrounding `except` absorbs. -/
def pyFloat : Json → Option ℚ
  | .num q => some q
  | .bool b => some (if b then 1 else 0)
  | .str s => pyParseFloat s
  | _ => none

/-- Python `str()` of a JSON-decoded value as interpolated by the label
f-string.  Scalars follow CPython; the rendering of containers and of
non-integer numbers is simplified, and no claim depends on those cases. -/
def pyStrOf : Json → PyStr
  | .str s => s
  | .num q => if q.den = 1 then (toString q.num).toList else (toString q).toList
  | .bool b => (if b then "True" else "False").toList
  | .null => "None".toList
  | .arr _ => "[...]".toList
  | .obj _ => "\x7b...\x7d".toList

/-- Python `round()` to the nearest integer, ties to even. -/
def pyRoundInt (x : ℚ) : ℤ :=
  let n := ⌊x⌋
  let r := x - n
  if r < 1/2 then n
  else if 1/2 < r then n + 1
  else if n % 2 = 0 then n else n + 1

/-- Python `round(x, 2)`. -/
def pyRound2 (x : ℚ) : ℚ := (pyRoundInt (x * 100) : ℚ) / 100

/-- Python `str()` of a nonnegative integer. -/
def pyStrOfNat (n : ℕ) : PyStr := (toString n).toList

/-- The normalized result dict returned by the classifiers (`disease`,
`confidence`, `class_index`, `model_used`, optional `plant_identified`). -/
structure Diagnosis where
  disease : PyStr
  confidence : ℚ
  class_index : ℤ
  model_used : PyStr
  plant_identified : Option Json

/-- Line 41: `VIT_CONFIDENCE_THRESHOLD = 40.0`. -/
def VIT_CONFIDENCE_THRESHOLD : ℚ := 40

/-- Lines 99–118, `classify_with_vit`.  The ViT forward pass is external:
its outputs are the argmax index `predicted_idx` and the softmax
probability `prob` of that index; the function's own data handling
(rounding, label lookup with the `Unknown (<idx>)` default, dict shape)
is translated directly. -/
def classify_with_vit (classes : List (PyStr × PyStr)) (predicted_idx : ℕ)
    (prob : ℚ) : Diagnosis :=
  let confidence := pyRound2 (prob * 100)
  let disease_name := (classes.lookup (pyStrOfNat predicted_idx)).getD
    ("Unknown (".toList ++ pyStrOfNat predicted_idx ++ ")".toList)
  { disease := disease_name
    confidence := confidence
    class_index := (predicted_idx : ℤ)
    model_used := "ViT (PlantVillage)".toList
    plant_identified := none }

/-- Modelled from the spec: `plant_classes.json` is loaded at startup but
is not under `src/`; the spec fixes it as an immutable table of 38
classes keyed by the stringified indices 0..37 (§3 ClassTable).  Label
texts are placeholders — no claim depends on them. -/
def plant_classes : List (PyStr × PyStr) :=
  (List.range 38).map fun i => (pyStrOfNat i, "Class ".toList ++ pyStrOfNat i)

/-- External outcomes seen by `classify_with_gemini_vision`:
whether a vision model was configured at startup, the outcome of
`generate_content_async` followed by `response.text` (`none` models a
raise inside the `try`), and `json.loads` (`none` models `ValueError`). -/
structure RemoteEnv where
  modelConfigured : Bool
  generateContent : Option PyStr
  loads : PyStr → Option Json

/-- Lines 167–185 of `app.py`: field extraction with `.get` defaults,
`float()` conversion and label composition.  `none` models a raise
(non-dict reply, non-string disease, unconvertible confidence) that the
surrounding `except` absorbs. -/
def gemini_parse_result (j : Json) : Option Diagnosis :=
  match j with
  | Json.obj fields =>
    let plantVal := (fields.lookup ("plant".toList)).getD (Json.str "Unknown".toList)
    match (fields.lookup ("disease".toList)).getD (Json.str "Unknown".toList) with
    | Json.str disease =>
      match pyFloat ((fields.lookup ("confidence".toList)).getD (Json.num 50)) with
      | some confidence =>
        some { disease :=
                 if pyLower disease = "healthy".toList then
                   pyStrOf plantVal ++ " — Healthy".toList
                 else
                   pyStrOf plantVal ++ " — ".toList ++ disease
               confidence := confidence
               class_index := -1
               model_used := "Gemini Vision".toList
               plant_identified := some plantVal }
      | none => none
    | _ => none
  | _ => none

/-- Lines 124–189, `classify_with_gemini_vision`: return `None` when no
vision model is configured; otherwise call the model, strip the reply,
parse it, and absorb every failure into `None`. -/
def classify_with_gemini_vision (env : RemoteEnv) : Option Diagnosis :=
  if !env.modelConfigured then none
  else
    match env.generateContent with
    | none => none
    | some raw =>
      match env.loads (extract_reply_text raw) with
      | none => none
      | some j => gemini_parse_result j

/-- Lines 195–219, `smart_classify`: ViT first; if its confidence is
below the threshold, try Gemini Vision and fall back to the ViT result
when that yields nothing. -/
def smart_classify (classes : List (PyStr × PyStr)) (predicted_idx : ℕ)
    (prob : ℚ) (env : RemoteEnv) : Diagnosis :=
  let vit_result := classify_with_vit classes predicted_idx prob
  if VIT_CONFIDENCE_THRESHOLD ≤ vit_result.confidence then vit_result
  else
    match classify_with_gemini_vision env with
    | some gemini_result => gemini_result
    | none => vit_result

/-- External outcomes seen by `get_treatment_advice`: whether a text
model was configured at startup, and the outcome of
`generate_content_async` on the advice prompt (a function of the disease
label, the only varying part of the prompt; `Except.error e` models a
raise carrying `str(e)`). -/
structure AdvisorEnv where
  textModelConfigured : Bool
  generateContent : PyStr → Except PyStr PyStr

/-- Lines 225–248, `get_treatment_advice`: fixed message when no text
model is configured; otherwise the model's text, with any raise absorbed
into a "could not generate" message. -/
def get_treatment_advice (env : AdvisorEnv) (disease : PyStr) : PyStr :=
  if !env.textModelConfigured then
    "Treatment advice unavailable — no Gemini API key configured.".toList
  else
    match env.generateContent disease with
    | Except.ok text => text
    | Except.error e => "Could not generate treatment advice: ".toList ++ e

/-- An HTTP handler outcome: a JSON-serialized value, or an
`HTTPException` with a status code and detail string. -/
inductive EndpointResult (α : Type) where
  | ok (value : α)
  | httpError (status : ℕ) (detail : PyStr)

/-- Lines 251–258, `read_upload_image`: `decodeOk` is the outcome of
`Image.open(io.BytesIO(contents)).convert("RGB")`; a decode failure
raises `HTTPException(400, "Invalid image file")`. -/
def read_upload_image (decodeOk : Bool) : EndpointResult Unit :=
  if decodeOk then .ok () else .httpError 400 ("Invalid image file".toList)

/-- The external outcomes a single request can observe: whether the
upload decoded, the ViT forward-pass outputs on the decoded image, and
the remote collaborators' behavior. -/
structure RequestEnv where
  decodeOk : Bool
  predicted_idx : ℕ
  vit_prob : ℚ
  remote : RemoteEnv
  advisor : AdvisorEnv

/-- Lines 278–283, the `/predict` endpoint. -/
def predict (classes : List (PyStr × PyStr)) (req : RequestEnv) :
    EndpointResult Diagnosis :=
  match read_upload_image req.decodeOk with
  | .httpError s d => .httpError s d
  | .ok _ => .ok (smart_classify classes req.predicted_idx req.vit_prob req.remote)

/-- The response of `/analyze`: the diagnosis dict extended with the
`treatment` key. -/
structure AnalyzeResponse where
  diagnosis : Diagnosis
  treatment : PyStr

/-- Lines 286–298, the `/analyze` endpoint: classification plus the
treatment text, skipping the LLM when the label already says healthy. -/
def analyze (classes : List (PyStr × PyStr)) (req : RequestEnv) :
    EndpointResult AnalyzeResponse :=
  match read_upload_image req.decodeOk with
  | .httpError s d => .httpError s d
  | .ok _ =>
    let result := smart_classify classes req.predicted_idx req.vit_prob req.remote
    let treatment :=
      if pyContains (pyLower result.disease) ("healthy".toList) then
        "Your plant looks healthy! Keep up the good care. 🌱".toList
      else
        get_treatment_advice req.advisor result.disease
    .ok { diagnosis := result, treatment := treatment }

/-! Fixture environments used to instantiate the theorems below. -/

def remoteEnvOff : RemoteEnv :=
  { modelConfigured := false, generateContent := none, loads := fun _ => none }

def remoteEnvParseFail : RemoteEnv :=
  { modelConfigured := true, generateContent := some ("oops".toList),
    loads := fun _ => none }

/-- A configured remote vision model whose reply decodes to `j`. -/
def remoteEnvReply (j : Json) : RemoteEnv :=
  { modelConfigured := true, generateContent := some [], loads := fun _ => some j }

def advisorOff : AdvisorEnv :=
  { textModelConfigured := false, generateContent := fun _ => Except.error [] }

def advisorRaising (e : PyStr) : AdvisorEnv :=
  { textModelConfigured := true, generateContent := fun _ => Except.error e }

def sampleRemoteReply : Json :=
  Json.obj [("plant".toList, Json.str ("Basil".toList)),
            ("disease".toList, Json.str ("Healthy".toList)),
            ("confidence".toList, Json.num 90)]

/-! Helper lemmas about the code-fence handling. -/

theorem splitFenceAux_cons_ne (c : Char) (hc : c ≠ fenceChar) (acc cs) :
    splitFenceAux acc (c :: cs) = splitFenceAux (c :: acc) cs := by
  match cs with
  | [] => simp [splitFenceAux]
  | [c2] => simp [splitFenceAux]
  | c2 :: c3 :: rest => simp [splitFenceAux, hc]

theorem splitFenceAux_fence (acc rest) :
    splitFenceAux acc (fenceMark ++ rest) = acc.reverse :: splitFenceAux [] rest := by
  show splitFenceAux acc (fenceChar :: fenceChar :: fenceChar :: rest) = _
  simp [splitFenceAux]

theorem splitFenceAux_clean (a : PyStr) (ha : ∀ c ∈ a, c ≠ fenceChar) (acc l) :
    splitFenceAux acc (a ++ l) = splitFenceAux (a.reverse ++ acc) l := by
  induction a generalizing acc with
  | nil => simp
  | cons c a ih =>
    have hc : c ≠ fenceChar := ha c (List.mem_cons_self c a)
    rw [List.cons_append, splitFenceAux_cons_ne c hc,
      ih (fun x hx => ha x (List.mem_cons_of_mem _ hx))]
    simp

theorem splitFenceAux_no_fence (a : PyStr) (ha : ∀ c ∈ a, c ≠ fenceChar) (acc) :
    splitFenceAux acc a = [acc.reverse ++ a] := by
  have h := splitFenceAux_clean a ha acc []
  rw [List.append_nil] at h
  rw [h]
  simp [splitFenceAux]

theorem pySplitFence_fenced (a p c : PyStr)
    (ha : ∀ ch ∈ a, ch ≠ fenceChar) (hp : ∀ ch ∈ p, ch ≠ fenceChar) :
    pySplitFence (a ++ fenceMark ++ p ++ fenceMark ++ c)
      = a :: p :: pySplitFence c := by
  unfold pySplitFence
  simp only [List.append_assoc]
  rw [splitFenceAux_clean a ha [] _, splitFenceAux_fence,
    splitFenceAux_clean p hp [] _, splitFenceAux_fence]
  simp

theorem fenceChar_not_ws : fenceChar.isWhitespace = false := by decide

theorem dropWhile_ws_append_fence (x rest : PyStr) :
    (x ++ (fenceMark ++ rest)).dropWhile Char.isWhitespace
      = (x.dropWhile Char.isWhitespace) ++ (fenceMark ++ rest) := by
  induction x with
  | nil =>
    simp only [List.nil_append]
    show (fenceChar :: (fenceChar :: fenceChar :: rest)).dropWhile _ = _
    rw [List.dropWhile_cons_of_neg (by simp [fenceChar_not_ws])]
    simp [fenceMark]
  | cons c x ih =>
    by_cases hc : c.isWhitespace
    · simp [List.dropWhile_cons, hc, ih]
    · simp [List.dropWhile_cons, hc]

theorem fenceMark_reverse : fenceMark.reverse = fenceMark := by decide

theorem pyStrip_fenced (a p c : PyStr) :
    pyStrip (a ++ fenceMark ++ p ++ fenceMark ++ c)
      = (a.dropWhile Char.isWhitespace) ++ fenceMark ++ p ++ fenceMark
          ++ ((c.reverse.dropWhile Char.isWhitespace).reverse) := by
  unfold pyStrip
  simp only [List.append_assoc]
  rw [dropWhile_ws_append_fence a (p ++ (fenceMark ++ c))]
  rw [show (a.dropWhile Char.isWhitespace) ++ (fenceMark ++ (p ++ (fenceMark ++ c)))
        = ((a.dropWhile Char.isWhitespace) ++ (fenceMark ++ (p ++ fenceMark))) ++ c by
      simp [List.append_assoc]]
  rw [List.reverse_append]
  rw [show ((a.dropWhile Char.isWhitespace) ++ (fenceMark ++ (p ++ fenceMark))).reverse
        = fenceMark ++ (p.reverse ++ (fenceMark ++ (a.dropWhile Char.isWhitespace).reverse)) by
      simp [List.reverse_append, fenceMark_reverse, List.append_assoc]]
  rw [dropWhile_ws_append_fence c.reverse _]
  simp [List.reverse_append, fenceMark_reverse, List.append_assoc]

theorem pyContains_append_fence (x y : PyStr) :
    pyContains (x ++ (fenceMark ++ y)) fenceMark = true := by
  induction x with
  | nil =>
    simp only [List.nil_append]
    show pyContains (fenceChar :: (fenceChar :: fenceChar :: y)) fenceMark = true
    unfold pyContains
    have : fenceMark.isPrefixOf (fenceChar :: fenceChar :: fenceChar :: y) = true := by
      simp [fenceMark, List.isPrefixOf]
    simp [this]
  | cons c x ih =>
    rw [List.cons_append]
    unfold pyContains
    simp [ih]

theorem mem_dropWhile_subset {p : Char → Bool} {l : PyStr} {ch : Char}
    (h : ch ∈ l.dropWhile p) : ch ∈ l :=
  (List.dropWhile_sublist p (l := l)).mem h

/-! Inversion helpers for the remote-vision path. -/

theorem gemini_parse_result_inv (j : Json) (g : Diagnosis)
    (h : gemini_parse_result j = some g) :
    ∃ fields cq, j = Json.obj fields ∧
      pyFloat ((fields.lookup ("confidence".toList)).getD (Json.num 50)) = some cq ∧
      g.confidence = cq ∧ g.model_used = "Gemini Vision".toList := by
  unfold gemini_parse_result at h
  split at h
  case h_2 => exact absurd h (by simp)
  case h_1 fields =>
    split at h
    case h_2 => exact absurd h (by simp)
    case h_1 disease heq =>
      split at h
      case h_2 => exact absurd h (by simp)
      case h_1 cq hcq =>
        refine ⟨fields, cq, rfl, hcq, ?_, ?_⟩ <;>
          (cases h; rfl)

theorem gemini_vision_inv (env : RemoteEnv) (g : Diagnosis)
    (h : classify_with_gemini_vision env = some g) :
    ∃ raw j, env.generateContent = some raw ∧
      env.loads (extract_reply_text raw) = some j ∧
      gemini_parse_result j = some g := by
  unfold classify_with_gemini_vision at h
  split at h
  · exact absurd h (by simp)
  · split at h
    · exact absurd h (by simp)
    · case h_2 raw heq =>
      split at h
      · exact absurd h (by simp)
      · case h_2 j hj => exact ⟨raw, j, heq, hj, h⟩

theorem gemini_vision_model_used (env : RemoteEnv) (g : Diagnosis)
    (h : classify_with_gemini_vision env = some g) :
    g.model_used = "Gemini Vision".toList := by
  obtain ⟨raw, j, _, _, hp⟩ := gemini_vision_inv env g h
  obtain ⟨_, _, _, _, _, hm⟩ := gemini_parse_result_inv j g hp
  exact hm

/-! Range lemmas for the rounded local confidence. -/

theorem pyRoundInt_eq (z : ℚ) :
    pyRoundInt z = if z - ⌊z⌋ < 1/2 then ⌊z⌋
      else if 1/2 < z - ⌊z⌋ then ⌊z⌋ + 1
      else if ⌊z⌋ % 2 = 0 then ⌊z⌋ else ⌊z⌋ + 1 := rfl

theorem pyRoundInt_nonneg (z : ℚ) (hz : 0 ≤ z) : 0 ≤ pyRoundInt z := by
  rw [pyRoundInt_eq]
  have hn : (0 : ℤ) ≤ ⌊z⌋ := Int.floor_nonneg.mpr hz
  split
  · exact hn
  · split
    · omega
    · split <;> omega

theorem pyRoundInt_le (z : ℚ) (B : ℤ) (hz : z ≤ B) : pyRoundInt z ≤ B := by
  rw [pyRoundInt_eq]
  have hfl : ⌊z⌋ ≤ B := by
    have h2 : ⌊z⌋ ≤ ⌊(B : ℚ)⌋ := Int.floor_le_floor hz
    simpa using h2
  by_cases hr : z - ⌊z⌋ < 1/2
  · rw [if_pos hr]
    exact hfl
  · have hfloor : (⌊z⌋ : ℚ) ≤ z := Int.floor_le z
    have h3 : (⌊z⌋ : ℚ) + 1/2 ≤ z := by
      have := not_lt.mp hr
      linarith
    have h4 : (⌊z⌋ : ℚ) < B := by linarith
    have hlt : ⌊z⌋ < B := by exact_mod_cast h4
    rw [if_neg hr]
    split
    · omega
    · split <;> omega

theorem vit_confidence_range (classes : List (PyStr × PyStr)) (idx : ℕ)
    (prob : ℚ) (h0 : 0 ≤ prob) (h1 : prob ≤ 1) :
    0 ≤ (classify_with_vit classes idx prob).confidence ∧
      (classify_with_vit classes idx prob).confidence ≤ 100 := by
  have hconf : (classify_with_vit classes idx prob).confidence
      = (pyRoundInt (prob * 100 * 100) : ℚ) / 100 := rfl
  have hlo : (0 : ℤ) ≤ pyRoundInt (prob * 100 * 100) :=
    pyRoundInt_nonneg _ (by nlinarith)
  have hhi : pyRoundInt (prob * 100 * 100) ≤ (10000 : ℤ) :=
    pyRoundInt_le _ 10000 (by push_cast; nlinarith)
  constructor
  · rw [hconf]
    have : (0 : ℚ) ≤ (pyRoundInt (prob * 100 * 100) : ℚ) := by exact_mod_cast hlo
    positivity
  · rw [hconf]
    have : (pyRoundInt (prob * 100 * 100) : ℚ) ≤ 10000 := by exact_mod_cast hhi
    linarith

theorem classify_with_vit_confidence_eq (classes : List (PyStr × PyStr))
    (idx : ℕ) (prob : ℚ) :
    (classify_with_vit classes idx prob).confidence
      = (pyRoundInt (prob * 100 * 100) : ℚ) / 100 := rfl

theorem vit_conf_half (classes : List (PyStr × PyStr)) (idx : ℕ) :
    (classify_with_vit classes idx (1/2)).confidence = 50 := by
  rw [classify_with_vit_confidence_eq, pyRoundInt_eq]
  norm_num

theorem vit_conf_tenth (classes : List (PyStr × PyStr)) (idx : ℕ) :
    (classify_with_vit classes idx (1/10)).confidence = 10 := by
  rw [classify_with_vit_confidence_eq, pyRoundInt_eq]
  norm_num

/-- C1: for every image, if the local classifier's confidence is at least
the fixed threshold 40.0, `smart_classify` returns the local result
unchanged, tagged as the local source, and this holds for every remote
environment — the remote vision classifier is not consulted. -/
theorem c1_local_fast_path (classes : List (PyStr × PyStr)) (idx : ℕ)
    (prob : ℚ) (env : RemoteEnv)
    (h : VIT_CONFIDENCE_THRESHOLD ≤ (classify_with_vit classes idx prob).confidence) :
    smart_classify classes idx prob env = classify_with_vit classes idx prob ∧
    (smart_classify classes idx prob env).model_used = "ViT (PlantVillage)".toList := by
  have he : smart_classify classes idx prob env = classify_with_vit classes idx prob := by
    unfold smart_classify
    rw [if_pos h]
  exact ⟨he, by rw [he]; rfl⟩

theorem c1_local_fast_path_witness :
    VIT_CONFIDENCE_THRESHOLD ≤ (classify_with_vit plant_classes 3 (1/2)).confidence ∧
    smart_classify plant_classes 3 (1/2) remoteEnvOff
      = classify_with_vit plant_classes 3 (1/2) :=
  ⟨by rw [vit_conf_half]; norm_num [VIT_CONFIDENCE_THRESHOLD],
   (c1_local_fast_path plant_classes 3 (1/2) remoteEnvOff
      (by rw [vit_conf_half]; norm_num [VIT_CONFIDENCE_THRESHOLD])).1⟩

/-- C2: for every image with local confidence strictly below 40.0, if the
remote vision classifier yields a successful result, `smart_classify`
returns exactly that result, tagged as the remote source — for every
remote confidence value, including 0. -/
theorem c2_remote_override (classes : List (PyStr × PyStr)) (idx : ℕ)
    (prob : ℚ) (env : RemoteEnv) (g : Diagnosis)
    (hlow : (classify_with_vit classes idx prob).confidence < VIT_CONFIDENCE_THRESHOLD)
    (hg : classify_with_gemini_vision env = some g) :
    smart_classify classes idx prob env = g ∧
    g.model_used = "Gemini Vision".toList := by
  constructor
  · unfold smart_classify
    rw [if_neg (not_le.mpr hlow), hg]
  · exact gemini_vision_model_used env g hg

def zeroConfReply : Json :=
  Json.obj [("plant".toList, Json.str ("Basil".toList)),
            ("disease".toList, Json.str ("Healthy".toList)),
            ("confidence".toList, Json.num 0)]

theorem c2_remote_override_witness :
    (classify_with_vit plant_classes 0 (1/10)).confidence < VIT_CONFIDENCE_THRESHOLD ∧
    smart_classify plant_classes 0 (1/10) (remoteEnvReply zeroConfReply)
      = { disease := "Basil — Healthy".toList, confidence := 0, class_index := -1,
          model_used := "Gemini Vision".toList,
          plant_identified := some (Json.str ("Basil".toList)) } :=
  ⟨by rw [vit_conf_tenth]; norm_num [VIT_CONFIDENCE_THRESHOLD],
   (c2_remote_override plant_classes 0 (1/10) (remoteEnvReply zeroConfReply) _
      (by rw [vit_conf_tenth]; norm_num [VIT_CONFIDENCE_THRESHOLD]) rfl).1⟩

/-- C3: for every image with local confidence strictly below 40.0, if the
remote call is unavailable (no model configured), raises, or its reply
fails structured parsing (either `json.loads` or the field extraction),
the failure is absorbed and `smart_classify` returns the original local
result; no error is propagated. -/
theorem c3_remote_failure_fallback (classes : List (PyStr × PyStr)) (idx : ℕ)
    (prob : ℚ) (env : RemoteEnv)
    (hlow : (classify_with_vit classes idx prob).confidence < VIT_CONFIDENCE_THRESHOLD)
    (hfail : env.modelConfigured = false ∨ env.generateContent = none ∨
      (∃ raw, env.generateContent = some raw ∧
        env.loads (extract_reply_text raw) = none) ∨
      (∃ raw j, env.generateContent = some raw ∧
        env.loads (extract_reply_text raw) = some j ∧ gemini_parse_result j = none)) :
    smart_classify classes idx prob env = classify_with_vit classes idx prob := by
  have hnone : classify_with_gemini_vision env = none := by
    unfold classify_with_gemini_vision
    rcases hfail with h | h | ⟨raw, h1, h2⟩ | ⟨raw, j, h1, h2, h3⟩
    · simp [h]
    · cases hc : env.modelConfigured <;> simp [h, hc]
    · cases hc : env.modelConfigured <;> simp [h1, h2, hc]
    · cases hc : env.modelConfigured <;> simp [h1, h2, h3, hc]
  unfold smart_classify
  rw [if_neg (not_le.mpr hlow), hnone]

theorem c3_remote_failure_fallback_witness :
    ((classify_with_vit plant_classes 0 (1/10)).confidence < VIT_CONFIDENCE_THRESHOLD ∧
      smart_classify plant_classes 0 (1/10) remoteEnvOff
        = classify_with_vit plant_classes 0 (1/10)) ∧
    smart_classify plant_classes 0 (1/10) remoteEnvParseFail
      = classify_with_vit plant_classes 0 (1/10) :=
  ⟨⟨by rw [vit_conf_tenth]; norm_num [VIT_CONFIDENCE_THRESHOLD],
    c3_remote_failure_fallback plant_classes 0 (1/10) remoteEnvOff
      (by rw [vit_conf_tenth]; norm_num [VIT_CONFIDENCE_THRESHOLD]) (Or.inl rfl)⟩,
   c3_remote_failure_fallback plant_classes 0 (1/10) remoteEnvParseFail
     (by rw [vit_conf_tenth]; norm_num [VIT_CONFIDENCE_THRESHOLD])
     (Or.inr (Or.inr (Or.inl ⟨"oops".toList, rfl, rfl⟩)))⟩

/-- C4: for every remote reply wrapped in surrounding code-fence markup
(backtick-free junk before the opening fence, a backtick-free payload,
backtick-free trailing text), the text handed to structured parsing is
the payload with a leading `json` tag dropped and whitespace stripped;
and for every parsed reply, the composed disease label is
`<plant> — Healthy` exactly when the condition equals `healthy`
case-insensitively, and `<plant> — <condition>` otherwise. -/
theorem c4_fence_strip_and_label :
    (∀ a p c : PyStr, (∀ ch ∈ a, ch ≠ fenceChar) → (∀ ch ∈ p, ch ≠ fenceChar) →
      (∀ ch ∈ c, ch ≠ fenceChar) →
      extract_reply_text (a ++ fenceMark ++ p ++ fenceMark ++ c)
        = pyStrip (if ("json".toList).isPrefixOf p then p.drop 4 else p)) ∧
    (∀ (env : RemoteEnv) (raw : PyStr) (fields : List (PyStr × Json))
        (pl d : PyStr) (cf : ℚ),
      env.modelConfigured = true →
      env.generateContent = some raw →
      env.loads (extract_reply_text raw) = some (Json.obj fields) →
      fields.lookup ("plant".toList) = some (Json.str pl) →
      fields.lookup ("disease".toList) = some (Json.str d) →
      fields.lookup ("confidence".toList) = some (Json.num cf) →
      classify_with_gemini_vision env = some
        { disease := if pyLower d = "healthy".toList then pl ++ " — Healthy".toList
                     else pl ++ " — ".toList ++ d
          confidence := cf
          class_index := -1
          model_used := "Gemini Vision".toList
          plant_identified := some (Json.str pl) }) := by
  constructor
  · intro a p c ha hp hc
    have hA : ∀ ch ∈ a.dropWhile Char.isWhitespace, ch ≠ fenceChar :=
      fun ch hch => ha ch (mem_dropWhile_subset hch)
    have hC : ∀ ch ∈ (c.reverse.dropWhile Char.isWhitespace).reverse, ch ≠ fenceChar :=
      fun ch hch => hc ch (by
        have h1 : ch ∈ c.reverse.dropWhile Char.isWhitespace := List.mem_reverse.mp hch
        exact List.mem_reverse.mp (mem_dropWhile_subset h1))
    have hcont : pyContains
        ((a.dropWhile Char.isWhitespace) ++ fenceMark ++ p ++ fenceMark
          ++ ((c.reverse.dropWhile Char.isWhitespace).reverse)) fenceMark = true := by
      have h := pyContains_append_fence (a.dropWhile Char.isWhitespace)
        (p ++ fenceMark ++ ((c.reverse.dropWhile Char.isWhitespace).reverse))
      simpa [List.append_assoc] using h
    simp only [extract_reply_text, pyStrip_fenced a p c, hcont, if_true,
      pySplitFence_fenced _ p _ hA hp]
    simp [List.getD]
  · intro env raw fields pl d cf hmc hgen hload hpl hd hcf
    simp only [classify_with_gemini_vision, hmc, Bool.not_true, Bool.false_eq_true,
      if_false, hgen, hload, gemini_parse_result, hpl, hd, hcf, Option.getD_some,
      pyFloat, pyStrOf]

def c4SampleFields : List (PyStr × Json) :=
  [("plant".toList, Json.str ("Basil".toList)),
   ("disease".toList, Json.str ("Healthy".toList)),
   ("confidence".toList, Json.num 90)]

theorem c4_fence_strip_and_label_witness :
    ((∀ ch ∈ ("x ".toList : PyStr), ch ≠ fenceChar) ∧
      extract_reply_text ("x ".toList ++ fenceMark ++ "json data".toList
          ++ fenceMark ++ " y".toList)
        = pyStrip (if ("json".toList).isPrefixOf ("json data".toList)
            then ("json data".toList).drop 4 else "json data".toList)) ∧
    classify_with_gemini_vision (remoteEnvReply (Json.obj c4SampleFields))
      = some { disease := if pyLower ("Healthy".toList) = "healthy".toList
                          then "Basil".toList ++ " — Healthy".toList
                          else "Basil".toList ++ " — ".toList ++ "Healthy".toList
               confidence := 90
               class_index := -1
               model_used := "Gemini Vision".toList
               plant_identified := some (Json.str ("Basil".toList)) } :=
  ⟨⟨by decide,
    c4_fence_strip_and_label.1 ("x ".toList) ("json data".toList) (" y".toList)
      (by decide) (by decide) (by decide)⟩,
   c4_fence_strip_and_label.2 (remoteEnvReply (Json.obj c4SampleFields)) []
     c4SampleFields ("Basil".toList) ("Healthy".toList) 90 rfl rfl rfl rfl rfl rfl⟩

def overConfReply : Json := Json.obj [("confidence".toList, Json.num 150)]

/-- C5 counterexample: the claim that every Diagnosis has
`confidence_percent` in [0, 100] is false on the code — a low-confidence
local result combined with a remote reply self-reporting confidence 150
yields a Diagnosis with confidence 150, because the remote confidence is
taken as-is. -/
theorem c5_confidence_range_counterexample :
    ¬ ((smart_classify plant_classes 0 (1/10)
        (remoteEnvReply overConfReply)).confidence ≤ 100) := by
  have hg : classify_with_gemini_vision (remoteEnvReply overConfReply)
      = some { disease := "Unknown — Unknown".toList, confidence := 150,
               class_index := -1, model_used := "Gemini Vision".toList,
               plant_identified := some (Json.str ("Unknown".toList)) } := rfl
  have hs : smart_classify plant_classes 0 (1/10) (remoteEnvReply overConfReply)
      = { disease := "Unknown — Unknown".toList, confidence := 150,
          class_index := -1, model_used := "Gemini Vision".toList,
          plant_identified := some (Json.str ("Unknown".toList)) } := by
    unfold smart_classify
    rw [if_neg (by rw [vit_conf_tenth]; norm_num [VIT_CONFIDENCE_THRESHOLD]), hg]
  rw [hs]
  norm_num

/-- C5 (amended): every Diagnosis produced by the Arbiter has
`confidence_percent` in [0, 100] provided the softmax probability lies in
[0, 1] and the remote reply's self-reported confidence (or its absent-key
default 50) lies in [0, 100]; without the latter proviso the remote value
is passed through as-is and can leave the interval. -/
theorem c5_amended_confidence_range (classes : List (PyStr × PyStr)) (idx : ℕ)
    (prob : ℚ) (env : RemoteEnv)
    (h0 : 0 ≤ prob) (h1 : prob ≤ 1)
    (hremote : ∀ s fields, env.loads s = some (Json.obj fields) →
      ∀ cq, pyFloat ((fields.lookup ("confidence".toList)).getD (Json.num 50)) = some cq →
        0 ≤ cq ∧ cq ≤ 100) :
    0 ≤ (smart_classify classes idx prob env).confidence ∧
      (smart_classify classes idx prob env).confidence ≤ 100 := by
  have hvit := vit_confidence_range classes idx prob h0 h1
  simp only [smart_classify]
  by_cases hcond : VIT_CONFIDENCE_THRESHOLD ≤ (classify_with_vit classes idx prob).confidence
  · rw [if_pos hcond]
    exact hvit
  · rw [if_neg hcond]
    split
    next g heq =>
      obtain ⟨raw, j, hraw, hloads, hparse⟩ := gemini_vision_inv env g heq
      obtain ⟨fields, cq, hj, hcf, hgconf, -⟩ := gemini_parse_result_inv j g hparse
      subst hj
      rw [hgconf]
      exact hremote _ fields hloads cq hcf
    next heq => exact hvit

theorem c5_amended_confidence_range_witness :
    (0 : ℚ) ≤ 1/2 ∧ (1/2 : ℚ) ≤ 1 ∧
    (0 ≤ (smart_classify plant_classes 3 (1/2) remoteEnvParseFail).confidence ∧
      (smart_classify plant_classes 3 (1/2) remoteEnvParseFail).confidence ≤ 100) :=
  ⟨by norm_num, by norm_num,
   c5_amended_confidence_range plant_classes 3 (1/2) remoteEnvParseFail
     (by norm_num) (by norm_num) (fun s fields h => nomatch h)⟩

/-- C6: for every predicted index in the 38-class range, the local
Diagnosis carries that index as a valid key of the fixed class table and
the local tag; and for every table and index with no table entry, the
label is synthesized as `Unknown (<index>)` instead of failing. -/
theorem c6_local_taxonomy :
    (∀ idx : ℕ, idx < 38 → ∀ prob : ℚ,
      (plant_classes.lookup (pyStrOfNat idx)).isSome = true ∧
      (classify_with_vit plant_classes idx prob).class_index = (idx : ℤ) ∧
      (classify_with_vit plant_classes idx prob).model_used
        = "ViT (PlantVillage)".toList) ∧
    (∀ (classes : List (PyStr × PyStr)) (idx : ℕ) (prob : ℚ),
      classes.lookup (pyStrOfNat idx) = none →
      (classify_with_vit classes idx prob).disease
        = "Unknown (".toList ++ pyStrOfNat idx ++ ")".toList) := by
  constructor
  · have hall : ((List.range 38).all
        fun i => (plant_classes.lookup (pyStrOfNat i)).isSome) = true := by decide
    intro idx h prob
    exact ⟨List.all_eq_true.mp hall idx (List.mem_range.mpr h), rfl, rfl⟩
  · intro classes idx prob h
    show ((classes.lookup (pyStrOfNat idx)).getD
      ("Unknown (".toList ++ pyStrOfNat idx ++ ")".toList)) = _
    rw [h]
    rfl

theorem c6_local_taxonomy_witness :
    ((3 : ℕ) < 38 ∧ (plant_classes.lookup (pyStrOfNat 3)).isSome = true) ∧
    (([] : List (PyStr × PyStr)).lookup (pyStrOfNat 3) = none ∧
      (classify_with_vit [] 3 (1/2)).disease
        = "Unknown (".toList ++ pyStrOfNat 3 ++ ")".toList) :=
  ⟨⟨by norm_num, (c6_local_taxonomy.1 3 (by norm_num) (1/2)).1⟩,
   ⟨rfl, c6_local_taxonomy.2 [] 3 (1/2) rfl⟩⟩

/-- C7: for every Diagnosis whose disease label contains "healthy"
case-insensitively anywhere, `/analyze` attaches the fixed encouraging
message, and the result does not depend on the advisor environment —
the remote advisor is not invoked. -/
theorem c7_healthy_skips_advisor (classes : List (PyStr × PyStr)) (idx : ℕ)
    (prob : ℚ) (renv : RemoteEnv) (adv : AdvisorEnv)
    (hh : pyContains (pyLower (smart_classify classes idx prob renv).disease)
      ("healthy".toList) = true) :
    analyze classes
        { decodeOk := true, predicted_idx := idx, vit_prob := prob,
          remote := renv, advisor := adv }
      = EndpointResult.ok
        { diagnosis := smart_classify classes idx prob renv,
          treatment := "Your plant looks healthy! Keep up the good care. 🌱".toList } := by
  simp only [analyze, read_upload_image]
  rw [hh]
  simp

theorem c7_healthy_skips_advisor_witness :
    pyContains
      (pyLower (smart_classify plant_classes 0 (1/10)
        (remoteEnvReply zeroConfReply)).disease) ("healthy".toList) = true ∧
    analyze plant_classes
        { decodeOk := true, predicted_idx := 0, vit_prob := 1/10,
          remote := remoteEnvReply zeroConfReply, advisor := advisorOff }
      = EndpointResult.ok
        { diagnosis := smart_classify plant_classes 0 (1/10) (remoteEnvReply zeroConfReply),
          treatment := "Your plant looks healthy! Keep up the good care. 🌱".toList } := by
  have hs : smart_classify plant_classes 0 (1/10) (remoteEnvReply zeroConfReply)
      = { disease := "Basil — Healthy".toList, confidence := 0, class_index := -1,
          model_used := "Gemini Vision".toList,
          plant_identified := some (Json.str ("Basil".toList)) } := by
    unfold smart_classify
    rw [if_neg (by rw [vit_conf_tenth]; norm_num [VIT_CONFIDENCE_THRESHOLD])]
    rfl
  have hh : pyContains
      (pyLower (smart_classify plant_classes 0 (1/10)
        (remoteEnvReply zeroConfReply)).disease) ("healthy".toList) = true := by
    rw [hs]
    decide
  exact ⟨hh, c7_healthy_skips_advisor plant_classes 0 (1/10)
    (remoteEnvReply zeroConfReply) advisorOff hh⟩

/-- C8: for every disease label, if the remote advisor is not configured
or its call raises, `get_treatment_advice` returns a user-facing message
saying advice could not be produced; no exception escapes (the function
is total). -/
theorem c8_advice_error_fallback (env : AdvisorEnv) (disease : PyStr) :
    (env.textModelConfigured = false →
      get_treatment_advice env disease
        = "Treatment advice unavailable — no Gemini API key configured.".toList) ∧
    (∀ e, env.textModelConfigured = true → env.generateContent disease = Except.error e →
      get_treatment_advice env disease
        = "Could not generate treatment advice: ".toList ++ e) := by
  constructor
  · intro h
    unfold get_treatment_advice
    simp [h]
  · intro e h1 h2
    unfold get_treatment_advice
    simp [h1, h2]

theorem c8_advice_error_fallback_witness :
    get_treatment_advice advisorOff ("Rust".toList)
      = "Treatment advice unavailable — no Gemini API key configured.".toList ∧
    get_treatment_advice (advisorRaising ("boom".toList)) ("Rust".toList)
      = "Could not generate treatment advice: ".toList ++ "boom".toList :=
  ⟨(c8_advice_error_fallback advisorOff ("Rust".toList)).1 rfl,
   (c8_advice_error_fallback (advisorRaising ("boom".toList)) ("Rust".toList)).2
     ("boom".toList) rfl rfl⟩

/-- C9: for every request whose upload cannot be decoded, both `/predict`
and `/analyze` fail with HTTP 400 whose detail mentions an invalid image;
and for every request that decodes, both endpoints return 200-style
results for every behavior of the remote collaborators — no other
failure surfaces as an HTTP error. -/
theorem c9_decode_only_error (classes : List (PyStr × PyStr)) (req : RequestEnv) :
    (req.decodeOk = false →
      predict classes req = .httpError 400 ("Invalid image file".toList) ∧
      analyze classes req = .httpError 400 ("Invalid image file".toList) ∧
      pyContains (pyLower ("Invalid image file".toList)) ("invalid image".toList)
        = true) ∧
    (req.decodeOk = true →
      predict classes req
        = .ok (smart_classify classes req.predicted_idx req.vit_prob req.remote) ∧
      ∃ resp, analyze classes req = .ok resp) := by
  constructor
  · intro h
    refine ⟨?_, ?_, by decide⟩ <;>
      (simp only [predict, analyze, read_upload_image, h]; rfl)
  · intro h
    constructor
    · simp only [predict, read_upload_image, h]
      rfl
    · exact ⟨_, by simp only [analyze, read_upload_image, h]; rfl⟩

theorem c9_decode_only_error_witness :
    (predict plant_classes
        { decodeOk := false, predicted_idx := 0, vit_prob := 1/10,
          remote := remoteEnvOff, advisor := advisorOff }
      = .httpError 400 ("Invalid image file".toList)) ∧
    (predict plant_classes
        { decodeOk := true, predicted_idx := 0, vit_prob := 1/10,
          remote := remoteEnvOff, advisor := advisorOff }
      = .ok (smart_classify plant_classes 0 (1/10) remoteEnvOff)) :=
  ⟨((c9_decode_only_error plant_classes
      { decodeOk := false, predicted_idx := 0, vit_prob := 1/10,
        remote := remoteEnvOff, advisor := advisorOff }).1 rfl).1,
   ((c9_decode_only_error plant_classes
      { decodeOk := true, predicted_idx := 0, vit_prob := 1/10,
        remote := remoteEnvOff, advisor := advisorOff }).2 rfl).1⟩

/-- C10: for every remote reply that parses as a JSON object with keys
missing, the call still succeeds: a missing `plant` defaults to
`Unknown`, a missing `disease` defaults to `Unknown`, and a missing
`confidence` defaults to 50. -/
theorem c10_missing_keys_default (env : RemoteEnv) (raw : PyStr)
    (fields : List (PyStr × Json))
    (hmc : env.modelConfigured = true)
    (hgen : env.generateContent = some raw)
    (hload : env.loads (extract_reply_text raw) = some (Json.obj fields)) :
    (fields.lookup ("plant".toList) = none →
     fields.lookup ("disease".toList) = none →
     fields.lookup ("confidence".toList) = none →
      classify_with_gemini_vision env = some
        { disease := "Unknown — Unknown".toList, confidence := 50, class_index := -1,
          model_used := "Gemini Vision".toList,
          plant_identified := some (Json.str ("Unknown".toList)) }) ∧
    (∀ d cf, fields.lookup ("plant".toList) = none →
      fields.lookup ("disease".toList) = some (Json.str d) →
      fields.lookup ("confidence".toList) = some (Json.num cf) →
      classify_with_gemini_vision env = some
        { disease := if pyLower d = "healthy".toList
                     then "Unknown".toList ++ " — Healthy".toList
                     else "Unknown".toList ++ " — ".toList ++ d
          confidence := cf, class_index := -1,
          model_used := "Gemini Vision".toList,
          plant_identified := some (Json.str ("Unknown".toList)) }) ∧
    (∀ pl cf, fields.lookup ("disease".toList) = none →
      fields.lookup ("plant".toList) = some (Json.str pl) →
      fields.lookup ("confidence".toList) = some (Json.num cf) →
      classify_with_gemini_vision env = some
        { disease := pl ++ " — ".toList ++ "Unknown".toList
          confidence := cf, class_index := -1,
          model_used := "Gemini Vision".toList,
          plant_identified := some (Json.str pl) }) ∧
    (∀ pl d, fields.lookup ("confidence".toList) = none →
      fields.lookup ("plant".toList) = some (Json.str pl) →
      fields.lookup ("disease".toList) = some (Json.str d) →
      classify_with_gemini_vision env = some
        { disease := if pyLower d = "healthy".toList then pl ++ " — Healthy".toList
                     else pl ++ " — ".toList ++ d
          confidence := 50, class_index := -1,
          model_used := "Gemini Vision".toList,
          plant_identified := some (Json.str pl) }) := by
  refine ⟨fun hp hd hc => ?_, fun d cf hp hd hc => ?_, fun pl cf hd hp hc => ?_,
    fun pl d hc hp hd => ?_⟩ <;>
    simp only [classify_with_gemini_vision, hmc, Bool.not_true, Bool.false_eq_true,
      if_false, hgen, hload, gemini_parse_result, hp, hd, hc, Option.getD_some,
      Option.getD_none, pyFloat, pyStrOf] <;>
    norm_num <;>
    decide

theorem c10_missing_keys_default_witness :
    classify_with_gemini_vision (remoteEnvReply (Json.obj []))
      = some { disease := "Unknown — Unknown".toList, confidence := 50,
               class_index := -1, model_used := "Gemini Vision".toList,
               plant_identified := some (Json.str ("Unknown".toList)) } :=
  (c10_missing_keys_default (remoteEnvReply (Json.obj [])) [] [] rfl rfl rfl).1
    rfl rfl rfl

end PlantScope
